import Mathlib

/-
Verification of the "decider" repository: an event-sourced decision engine
for a Payment aggregate.  The repository holds three implementations of the
same business rules:

* `src/evolve.ts`   — the folding decider (evolve + hydrate + decide on state),
  embedded below in namespace `Evolve`;
* `src/decide.ts`   — the stateless replay decider (decide over raw history),
  embedded below in namespace `Decide`;
* `src/unnamed/part_000` — an earlier replay decider variant, embedded below
  in namespace `Part000`;
* `src/projection.ts` — the read-model projection, namespace `Projection`.

TypeScript `number` amounts are modelled as `Int` (integer minor units, as the
spec recommends).  A TypeScript function that `throw`s is modelled as
`Except String`, carrying the exact thrown message.
-/

namespace Decider

/-- Commands of the Payment aggregate (`PaymentCommand` in both
`src/decide.ts` and `src/evolve.ts`). -/
inductive PaymentCommand where
  | CreatePayment (id : String) (amount : Int)
  | AuthorisePayment (id : String)
  | CapturePayment (id : String)
  | RefundPayment (id : String) (amount : Int)
  | CancelPayment (id : String)
deriving DecidableEq

/-- Events of the Payment aggregate (`PaymentEvent` in both source files). -/
inductive PaymentEvent where
  | PaymentCreated (id : String) (amount : Int)
  | PaymentAuthorised (id : String)
  | PaymentCaptured (id : String)
  | PaymentRefunded (id : String) (amount : Int)
  | PaymentCancelled (id : String)
deriving DecidableEq

/-- The `id` field every command carries. -/
def PaymentCommand.id : PaymentCommand → String
  | .CreatePayment i _ => i
  | .AuthorisePayment i => i
  | .CapturePayment i => i
  | .RefundPayment i _ => i
  | .CancelPayment i => i

/-- The `id` field every event carries. -/
def PaymentEvent.id : PaymentEvent → String
  | .PaymentCreated i _ => i
  | .PaymentAuthorised i => i
  | .PaymentCaptured i => i
  | .PaymentRefunded i _ => i
  | .PaymentCancelled i => i

/-- Test for `event.type === "PaymentCreated"`. -/
def isPaymentCreated : PaymentEvent → Bool
  | .PaymentCreated _ _ => true
  | _ => false

/-- Test for `event.type === "PaymentAuthorised"`. -/
def isPaymentAuthorised : PaymentEvent → Bool
  | .PaymentAuthorised _ => true
  | _ => false

/-- Test for `event.type === "PaymentCaptured"`. -/
def isPaymentCaptured : PaymentEvent → Bool
  | .PaymentCaptured _ => true
  | _ => false

/-- Test for `event.type === "PaymentRefunded"`. -/
def isPaymentRefunded : PaymentEvent → Bool
  | .PaymentRefunded _ _ => true
  | _ => false

/-- Test for `event.type === "PaymentCancelled"`. -/
def isPaymentCancelled : PaymentEvent → Bool
  | .PaymentCancelled _ => true
  | _ => false

/-- The `amount` of a `PaymentCreated` event (0 for any other event,
mirroring the source default `createdEvent?.amount ?? 0`). -/
def createdAmountOf : PaymentEvent → Int
  | .PaymentCreated _ a => a
  | _ => 0

/-- The `amount` of a `PaymentRefunded` event (0 for any other event). -/
def refundAmountOf : PaymentEvent → Int
  | .PaymentRefunded _ a => a
  | _ => 0

namespace Evolve

/-- The `created` facet of `PaymentState` (src/evolve.ts). -/
structure CreatedFacet where
  amount : Int
  created : Bool
deriving DecidableEq

/-- The `cancelled` facet of `PaymentState`. -/
structure CancelledFacet where
  cancelled : Bool
deriving DecidableEq

/-- The `authorised` facet of `PaymentState`. -/
structure AuthorisedFacet where
  authorised : Bool
deriving DecidableEq

/-- The `captured` facet of `PaymentState`. -/
structure CapturedFacet where
  captured : Bool
deriving DecidableEq

/-- The `refunded` facet of `PaymentState`. -/
structure RefundedFacet where
  amount : Int
  refunded : Bool
deriving DecidableEq

/-- State type `PaymentState` from src/evolve.ts: five independent facets. -/
structure PaymentState where
  created : CreatedFacet
  cancelled : CancelledFacet
  authorised : AuthorisedFacet
  captured : CapturedFacet
  refunded : RefundedFacet
deriving DecidableEq

/-- Embeds `initialState` from src/evolve.ts: all facets zero/false. -/
def initialState : PaymentState :=
  { created := { amount := 0, created := false }
    cancelled := { cancelled := false }
    authorised := { authorised := false }
    captured := { captured := false }
    refunded := { amount := 0, refunded := false } }

/-- Embeds `evolve` from src/evolve.ts: fold one event onto a state snapshot. -/
def evolve (state : PaymentState) (event : PaymentEvent) : PaymentState :=
  match event with
  | .PaymentCreated _ amount =>
      { state with created := { amount := amount, created := true } }
  | .PaymentAuthorised _ =>
      { state with authorised := { authorised := true } }
  | .PaymentCaptured _ =>
      { state with captured := { captured := true } }
  | .PaymentRefunded _ amount =>
      let newRefundedAmount := state.refunded.amount + amount
      { state with
          refunded :=
            { amount := newRefundedAmount
              refunded :=
                (newRefundedAmount == state.created.amount) &&
                  Decidable.decide (state.created.amount > 0) } }
  | .PaymentCancelled _ =>
      { state with cancelled := { cancelled := true } }

/-- Embeds `decideCreatePayment` from src/evolve.ts. -/
def decideCreatePayment (id : String) (amount : Int) (state : PaymentState) :
    Except String (List PaymentEvent) :=
  if state.created.created then .error "Payment already exists"
  else .ok [.PaymentCreated id amount]

/-- Embeds `decideAuthorisePayment` from src/evolve.ts. -/
def decideAuthorisePayment (id : String) (state : PaymentState) :
    Except String (List PaymentEvent) :=
  if !state.created.created then .error "Payment not created"
  else if state.cancelled.cancelled then .error "Payment cancelled"
  else if state.authorised.authorised then .error "Payment already authorised"
  else .ok [.PaymentAuthorised id]

/-- Embeds `decideCapturePayment` from src/evolve.ts. -/
def decideCapturePayment (id : String) (state : PaymentState) :
    Except String (List PaymentEvent) :=
  if !state.authorised.authorised then .error "Payment not authorised"
  else if state.cancelled.cancelled then .error "Payment cancelled"
  else if state.captured.captured then .error "Payment already captured"
  else .ok [.PaymentCaptured id]

/-- Embeds `decideRefundPayment` from src/evolve.ts. -/
def decideRefundPayment (id : String) (amount : Int) (state : PaymentState) :
    Except String (List PaymentEvent) :=
  if !state.created.created then .error "Payment not created"
  else if !state.captured.captured then .error "Payment not captured"
  else if state.cancelled.cancelled then .error "Payment cancelled"
  else if amount > state.created.amount - state.refunded.amount then
    .error "Payment cannot be refunded for more than captured"
  else .ok [.PaymentRefunded id amount]

/-- Embeds `decideCancelPayment` from src/evolve.ts. -/
def decideCancelPayment (id : String) (state : PaymentState) :
    Except String (List PaymentEvent) :=
  if !state.created.created then .error "Payment not created"
  else if state.cancelled.cancelled then .error "Payment already cancelled"
  else if state.captured.captured then .error "Payment already captured"
  else if state.refunded.amount > 0 then .error "Payment already refunded"
  else .ok [.PaymentCancelled id]

/-- Embeds `decide` from src/evolve.ts: dispatch on the command kind. -/
def decide (command : PaymentCommand) (state : PaymentState) :
    Except String (List PaymentEvent) :=
  match command with
  | .CreatePayment id amount => decideCreatePayment id amount state
  | .AuthorisePayment id => decideAuthorisePayment id state
  | .CapturePayment id => decideCapturePayment id state
  | .RefundPayment id amount => decideRefundPayment id amount state
  | .CancelPayment id => decideCancelPayment id state

/-- The `Decider` record type from src/evolve.ts. -/
structure Decider (Command Event State : Type) where
  initialState : State
  evolve : State → Event → State
  decide : Command → State → Except String (List Event)

/-- Embeds `paymentDecider` from src/evolve.ts. -/
def paymentDecider : Decider PaymentCommand PaymentEvent PaymentState :=
  { initialState := initialState, evolve := evolve, decide := decide }

/-- Embeds `hydrate` from src/evolve.ts: left fold of evolve over the history. -/
def hydrate (events : List PaymentEvent) : PaymentState :=
  events.foldl paymentDecider.evolve paymentDecider.initialState

/-- Embeds `processCommand` from src/evolve.ts: hydrate then decide. -/
def processCommand (command : PaymentCommand) (events : List PaymentEvent) :
    Except String (List PaymentEvent) :=
  paymentDecider.decide command (hydrate events)

end Evolve

namespace Decide

/-- Embeds `decideCreatePayment` from src/decide.ts. -/
def decideCreatePayment (id : String) (amount : Int)
    (events : List PaymentEvent) : Except String (List PaymentEvent) :=
  let createdEvent :=
    events.find? fun event => event.id == id && isPaymentCreated event
  let created := createdEvent.isSome
  if created then .error "Payment already exists"
  else .ok [.PaymentCreated id amount]

/-- Embeds `decideAuthorisePayment` from src/decide.ts. -/
def decideAuthorisePayment (id : String) (events : List PaymentEvent) :
    Except String (List PaymentEvent) :=
  let createdEvent :=
    events.find? fun event => event.id == id && isPaymentCreated event
  let created := createdEvent.isSome
  let cancelled :=
    events.any fun event => event.id == id && isPaymentCancelled event
  let authorised :=
    events.any fun event => event.id == id && isPaymentAuthorised event
  if !created then .error "Payment not created"
  else if cancelled then .error "Payment cancelled"
  else if authorised then .error "Payment already authorised"
  else .ok [.PaymentAuthorised id]

/-- Embeds `decideCapturePayment` from src/decide.ts. -/
def decideCapturePayment (id : String) (events : List PaymentEvent) :
    Except String (List PaymentEvent) :=
  let authorised :=
    events.any fun event => event.id == id && isPaymentAuthorised event
  let cancelled :=
    events.any fun event => event.id == id && isPaymentCancelled event
  let captured :=
    events.any fun event => event.id == id && isPaymentCaptured event
  if !authorised then .error "Payment not authorised"
  else if cancelled then .error "Payment cancelled"
  else if captured then .error "Payment already captured"
  else .ok [.PaymentCaptured id]

/-- Embeds `decideRefundPayment` from src/decide.ts. -/
def decideRefundPayment (id : String) (amount : Int)
    (events : List PaymentEvent) : Except String (List PaymentEvent) :=
  let createdEvent :=
    events.find? fun event => event.id == id && isPaymentCreated event
  let totalRefundedAmount :=
    events.foldl
      (fun total event =>
        if event.id == id && isPaymentRefunded event then
          total + refundAmountOf event
        else total)
      0
  let createdAmount := (createdEvent.map createdAmountOf).getD 0
  let created := createdEvent.isSome
  let captured :=
    events.any fun event => event.id == id && isPaymentCaptured event
  let cancelled :=
    events.any fun event => event.id == id && isPaymentCancelled event
  if !created then .error "Payment not created"
  else if !captured then .error "Payment not captured"
  else if cancelled then .error "Payment cancelled"
  else if amount > createdAmount - totalRefundedAmount then
    .error "Payment cannot be refunded for more than captured"
  else .ok [.PaymentRefunded id amount]

/-- Embeds `decideCancelPayment` from src/decide.ts. -/
def decideCancelPayment (id : String) (events : List PaymentEvent) :
    Except String (List PaymentEvent) :=
  let createdEvent :=
    events.find? fun event => event.id == id && isPaymentCreated event
  let totalRefundedAmount :=
    events.foldl
      (fun total event =>
        if event.id == id && isPaymentRefunded event then
          total + refundAmountOf event
        else total)
      0
  let created := createdEvent.isSome
  let cancelled :=
    events.any fun event => event.id == id && isPaymentCancelled event
  let captured :=
    events.any fun event => event.id == id && isPaymentCaptured event
  if !created then .error "Payment not created"
  else if cancelled then .error "Payment already cancelled"
  else if captured then .error "Payment already captured"
  else if totalRefundedAmount > 0 then .error "Payment already refunded"
  else .ok [.PaymentCancelled id]

/-- The `decide` dispatch of `paymentDecider` in src/decide.ts. -/
def decide (command : PaymentCommand) (events : List PaymentEvent) :
    Except String (List PaymentEvent) :=
  match command with
  | .CreatePayment id amount => decideCreatePayment id amount events
  | .AuthorisePayment id => decideAuthorisePayment id events
  | .CapturePayment id => decideCapturePayment id events
  | .RefundPayment id amount => decideRefundPayment id amount events
  | .CancelPayment id => decideCancelPayment id events

/-- The `Decider` record type from src/decide.ts. -/
structure Decider (Command Event : Type) where
  decide : Command → List Event → Except String (List Event)

/-- Embeds `paymentDecider` from src/decide.ts. -/
def paymentDecider : Decider PaymentCommand PaymentEvent :=
  { decide := decide }

end Decide

namespace Part000

/-- The `paymentDecider.decide` dispatch of src/unnamed/part_000 (an earlier
replay decider; its CancelPayment case rejects on the mere existence of a
`PaymentRefunded` event rather than on the accumulated refunded amount). -/
def decide (command : PaymentCommand) (events : List PaymentEvent) :
    Except String (List PaymentEvent) :=
  match command with
  | .CreatePayment id amount =>
      if events.any fun event => event.id == id && isPaymentCreated event then
        .error "Payment already exists"
      else .ok [.PaymentCreated id amount]
  | .AuthorisePayment id =>
      if !(events.any fun event => event.id == id && isPaymentCreated event)
      then .error "Payment not created"
      else if events.any fun event =>
          event.id == id && isPaymentCancelled event then
        .error "Payment cancelled"
      else if events.any fun event =>
          event.id == id && isPaymentAuthorised event then
        .error "Payment already authorised"
      else .ok [.PaymentAuthorised id]
  | .CapturePayment id =>
      if !(events.any fun event => event.id == id && isPaymentAuthorised event)
      then .error "Payment not authorised"
      else if events.any fun event =>
          event.id == id && isPaymentCancelled event then
        .error "Payment cancelled"
      else if events.any fun event =>
          event.id == id && isPaymentCaptured event then
        .error "Payment already captured"
      else .ok [.PaymentCaptured id]
  | .RefundPayment id amount =>
      match events.find? fun event =>
          event.id == id && isPaymentCreated event with
      | none => .error "Payment not created"
      | some createdEvent =>
          if !(events.any fun event =>
              event.id == id && isPaymentCaptured event) then
            .error "Payment not captured"
          else if events.any fun event =>
              event.id == id && isPaymentCancelled event then
            .error "Payment cancelled"
          else
            let total :=
              events.foldl
                (fun total event =>
                  if event.id == id && isPaymentRefunded event then
                    total + refundAmountOf event
                  else total)
                0
            if amount > createdAmountOf createdEvent - total then
              .error "Payment cannot be refunded for more than captured"
            else .ok [.PaymentRefunded id amount]
  | .CancelPayment id =>
      if !(events.any fun event => event.id == id && isPaymentCreated event)
      then .error "Payment not created"
      else if events.any fun event =>
          event.id == id && isPaymentCancelled event then
        .error "Payment already cancelled"
      else if events.any fun event =>
          event.id == id && isPaymentCaptured event then
        .error "Payment already captured"
      else if events.any fun event =>
          event.id == id && isPaymentRefunded event then
        .error "Payment already refunded"
      else .ok [.PaymentCancelled id]

end Part000

namespace Projection

/-- The closed set of `status` values of the read model (src/projection.ts). -/
inductive StatusKind where
  | created
  | authorised
  | captured
  | refunded
  | cancelled
deriving DecidableEq

/-- The `PaymentStatus` record of src/projection.ts. -/
structure PaymentStatus where
  id : String
  amount : Int
  status : StatusKind
  refundedAmount : Int
  remainingRefundableAmount : Int
deriving DecidableEq

/-- Embeds `buildPaymentStatus` from src/projection.ts. -/
def buildPaymentStatus (id : String) (events : List PaymentEvent) :
    Option PaymentStatus :=
  let state := Evolve.hydrate events
  if !state.created.created then none
  else
    let status : StatusKind :=
      if state.cancelled.cancelled then .cancelled
      else if state.refunded.refunded then .refunded
      else if state.captured.captured then .captured
      else if state.authorised.authorised then .authorised
      else .created
    some
      { id := id
        amount := state.created.amount
        status := status
        refundedAmount := state.refunded.amount
        remainingRefundableAmount :=
          state.created.amount - state.refunded.amount }

end Projection

/-! Specification-side helper definitions, used to phrase the claims.  Each is
a direct reading of a quantity the source computes. -/

/-- Some `PaymentCreated` event for `id` occurs in `events`. -/
def createdFor (id : String) (events : List PaymentEvent) : Bool :=
  events.any fun event => event.id == id && isPaymentCreated event

/-- Some `PaymentAuthorised` event for `id` occurs in `events`. -/
def authorisedFor (id : String) (events : List PaymentEvent) : Bool :=
  events.any fun event => event.id == id && isPaymentAuthorised event

/-- Some `PaymentCaptured` event for `id` occurs in `events`. -/
def capturedFor (id : String) (events : List PaymentEvent) : Bool :=
  events.any fun event => event.id == id && isPaymentCaptured event

/-- Some `PaymentCancelled` event for `id` occurs in `events`. -/
def cancelledFor (id : String) (events : List PaymentEvent) : Bool :=
  events.any fun event => event.id == id && isPaymentCancelled event

/-- Some `PaymentRefunded` event for `id` occurs in `events` (regardless of
its amount). -/
def refundEventFor (id : String) (events : List PaymentEvent) : Bool :=
  events.any fun event => event.id == id && isPaymentRefunded event

/-- Sum of the amounts of all `PaymentRefunded` events for `id` in `events`. -/
def totalRefundedFor (id : String) (events : List PaymentEvent) : Int :=
  ((events.filter fun event => event.id == id && isPaymentRefunded event).map
    refundAmountOf).sum

/-- The amount of the first `PaymentCreated` event for `id` (0 if none). -/
def firstCreatedAmountFor (id : String) (events : List PaymentEvent) : Int :=
  (((events.find? fun event => event.id == id && isPaymentCreated event).map
    createdAmountOf)).getD 0

/-- Sum of the amounts of all `PaymentRefunded` events in `events`
(no id filter, matching what `hydrate` folds). -/
def sumRefundedAll (events : List PaymentEvent) : Int :=
  ((events.filter isPaymentRefunded).map refundAmountOf).sum

/-- The amount of the first `PaymentCreated` event of `events` (0 if none). -/
def firstCreatedAmount (events : List PaymentEvent) : Int :=
  ((events.find? isPaymentCreated).map createdAmountOf).getD 0

/-- The amount of the last `PaymentCreated` event of `events`, starting from
default `a`: the created-amount a left fold of `evolve` ends up with. -/
def lastCreatedAmountFrom (a : Int) : List PaymentEvent → Int
  | [] => a
  | .PaymentCreated _ x :: t => lastCreatedAmountFrom x t
  | _ :: t => lastCreatedAmountFrom a t

/-- The amount of the last `PaymentCreated` event of `events` (0 if none). -/
def lastCreatedAmount (events : List PaymentEvent) : Int :=
  lastCreatedAmountFrom 0 events

/-! Characterization of the fold: how each facet of a folded state is
determined by the event sequence. -/

theorem foldl_evolve_created (h : List PaymentEvent) :
    ∀ s : Evolve.PaymentState,
      (h.foldl Evolve.evolve s).created.created =
        (s.created.created || h.any isPaymentCreated) := by
  induction h with
  | nil => intro s; simp
  | cons e t ih =>
      intro s
      cases e <;>
        simp [List.foldl_cons, List.any_cons, Evolve.evolve, ih,
          isPaymentCreated, Bool.or_assoc]

theorem foldl_evolve_authorised (h : List PaymentEvent) :
    ∀ s : Evolve.PaymentState,
      (h.foldl Evolve.evolve s).authorised.authorised =
        (s.authorised.authorised || h.any isPaymentAuthorised) := by
  induction h with
  | nil => intro s; simp
  | cons e t ih =>
      intro s
      cases e <;>
        simp [List.foldl_cons, List.any_cons, Evolve.evolve, ih,
          isPaymentAuthorised, Bool.or_assoc]

theorem foldl_evolve_captured (h : List PaymentEvent) :
    ∀ s : Evolve.PaymentState,
      (h.foldl Evolve.evolve s).captured.captured =
        (s.captured.captured || h.any isPaymentCaptured) := by
  induction h with
  | nil => intro s; simp
  | cons e t ih =>
      intro s
      cases e <;>
        simp [List.foldl_cons, List.any_cons, Evolve.evolve, ih,
          isPaymentCaptured, Bool.or_assoc]

theorem foldl_evolve_cancelled (h : List PaymentEvent) :
    ∀ s : Evolve.PaymentState,
      (h.foldl Evolve.evolve s).cancelled.cancelled =
        (s.cancelled.cancelled || h.any isPaymentCancelled) := by
  induction h with
  | nil => intro s; simp
  | cons e t ih =>
      intro s
      cases e <;>
        simp [List.foldl_cons, List.any_cons, Evolve.evolve, ih,
          isPaymentCancelled, Bool.or_assoc]

theorem foldl_evolve_created_amount (h : List PaymentEvent) :
    ∀ s : Evolve.PaymentState,
      (h.foldl Evolve.evolve s).created.amount =
        lastCreatedAmountFrom s.created.amount h := by
  induction h with
  | nil => intro s; simp [lastCreatedAmountFrom]
  | cons e t ih =>
      intro s
      cases e <;>
        simp [List.foldl_cons, Evolve.evolve, ih, lastCreatedAmountFrom]

theorem sumRefundedAll_cons (e : PaymentEvent) (t : List PaymentEvent) :
    sumRefundedAll (e :: t) = refundAmountOf e + sumRefundedAll t := by
  cases e <;>
    simp [sumRefundedAll, refundAmountOf, isPaymentRefunded, List.filter_cons]

theorem sumRefundedAll_append (h h2 : List PaymentEvent) :
    sumRefundedAll (h ++ h2) = sumRefundedAll h + sumRefundedAll h2 := by
  simp [sumRefundedAll, List.filter_append]

theorem foldl_evolve_refunded_amount (h : List PaymentEvent) :
    ∀ s : Evolve.PaymentState,
      (h.foldl Evolve.evolve s).refunded.amount =
        s.refunded.amount + sumRefundedAll h := by
  induction h with
  | nil => intro s; simp [sumRefundedAll]
  | cons e t ih =>
      intro s
      cases e <;>
        simp [List.foldl_cons, Evolve.evolve, ih, sumRefundedAll_cons,
          refundAmountOf, add_assoc]

theorem foldl_evolve_refunded_of_no_refund (h : List PaymentEvent) :
    ∀ s : Evolve.PaymentState, h.any isPaymentRefunded = false →
      (h.foldl Evolve.evolve s).refunded = s.refunded := by
  induction h with
  | nil => intro s _; rfl
  | cons e t ih =>
      intro s hno
      simp [List.any_cons] at hno
      cases e <;>
        simp_all [List.foldl_cons, Evolve.evolve, ih, isPaymentRefunded]

theorem hydrate_created (h : List PaymentEvent) :
    (Evolve.hydrate h).created.created = h.any isPaymentCreated := by
  simp [Evolve.hydrate, Evolve.paymentDecider, foldl_evolve_created,
    Evolve.initialState]

theorem hydrate_authorised (h : List PaymentEvent) :
    (Evolve.hydrate h).authorised.authorised = h.any isPaymentAuthorised := by
  simp [Evolve.hydrate, Evolve.paymentDecider, foldl_evolve_authorised,
    Evolve.initialState]

theorem hydrate_captured (h : List PaymentEvent) :
    (Evolve.hydrate h).captured.captured = h.any isPaymentCaptured := by
  simp [Evolve.hydrate, Evolve.paymentDecider, foldl_evolve_captured,
    Evolve.initialState]

theorem hydrate_cancelled (h : List PaymentEvent) :
    (Evolve.hydrate h).cancelled.cancelled = h.any isPaymentCancelled := by
  simp [Evolve.hydrate, Evolve.paymentDecider, foldl_evolve_cancelled,
    Evolve.initialState]

theorem hydrate_created_amount (h : List PaymentEvent) :
    (Evolve.hydrate h).created.amount = lastCreatedAmount h := by
  simp [Evolve.hydrate, Evolve.paymentDecider, foldl_evolve_created_amount,
    Evolve.initialState, lastCreatedAmount]

theorem hydrate_refunded_amount (h : List PaymentEvent) :
    (Evolve.hydrate h).refunded.amount = sumRefundedAll h := by
  simp [Evolve.hydrate, Evolve.paymentDecider, foldl_evolve_refunded_amount,
    Evolve.initialState]

/-! Bridging lemmas between the history scans of the replay decider and the
specification-side quantities. -/

theorem isSome_find?_eq_any (p : PaymentEvent → Bool) (h : List PaymentEvent) :
    (h.find? p).isSome = h.any p := by
  induction h with
  | nil => rfl
  | cons e t ih =>
      cases hp : p e <;> simp [List.find?_cons, hp, List.any_cons, ih]

theorem any_id_filter (h : List PaymentEvent) (cid : String)
    (p : PaymentEvent → Bool) (hid : ∀ e ∈ h, e.id = cid) :
    (h.any fun e => e.id == cid && p e) = h.any p := by
  induction h with
  | nil => rfl
  | cons e t ih =>
      have h1 : e.id = cid := hid e (List.mem_cons_self e t)
      simp [List.any_cons, h1, ih fun x hx => hid x (List.mem_cons_of_mem e hx)]

theorem find?_id_filter (h : List PaymentEvent) (cid : String)
    (p : PaymentEvent → Bool) (hid : ∀ e ∈ h, e.id = cid) :
    (h.find? fun e => e.id == cid && p e) = h.find? p := by
  induction h with
  | nil => rfl
  | cons e t ih =>
      have h1 : e.id = cid := hid e (List.mem_cons_self e t)
      have ih2 := ih fun x hx => hid x (List.mem_cons_of_mem e hx)
      cases hp : p e <;> simp [List.find?_cons, hp, h1, ih2]

theorem totalRefundedFor_cons (cid : String) (e : PaymentEvent)
    (t : List PaymentEvent) :
    totalRefundedFor cid (e :: t) =
      (if e.id == cid && isPaymentRefunded e then refundAmountOf e else 0) +
        totalRefundedFor cid t := by
  by_cases he : (e.id == cid && isPaymentRefunded e) = true <;>
    simp [totalRefundedFor, List.filter_cons, he]

theorem foldl_refund_total (h : List PaymentEvent) (cid : String) :
    ∀ a : Int,
      h.foldl
        (fun total event =>
          if event.id == cid && isPaymentRefunded event then
            total + refundAmountOf event
          else total)
        a = a + totalRefundedFor cid h := by
  induction h with
  | nil => intro a; simp [totalRefundedFor]
  | cons e t ih =>
      intro a
      rw [List.foldl_cons, ih, totalRefundedFor_cons]
      by_cases he : (e.id == cid && isPaymentRefunded e) = true <;>
        simp [he, add_assoc]

theorem totalRefundedFor_eq_sumAll (h : List PaymentEvent) (cid : String)
    (hid : ∀ e ∈ h, e.id = cid) :
    totalRefundedFor cid h = sumRefundedAll h := by
  induction h with
  | nil => rfl
  | cons e t ih =>
      have h1 : e.id = cid := hid e (List.mem_cons_self e t)
      have ih2 := ih fun x hx => hid x (List.mem_cons_of_mem e hx)
      simp [totalRefundedFor, sumRefundedAll, List.filter_cons, h1] at ih2 ⊢
      cases hr : isPaymentRefunded e <;> simp [hr, ih2]

theorem lastCreatedAmountFrom_no_created (t : List PaymentEvent)
    (hno : t.any isPaymentCreated = false) :
    ∀ a : Int, lastCreatedAmountFrom a t = a := by
  induction t with
  | nil => intro a; rfl
  | cons e u ih =>
      intro a
      simp [List.any_cons] at hno
      cases e <;> simp_all [lastCreatedAmountFrom, isPaymentCreated]

theorem firstCreated_eq_lastCreated (h : List PaymentEvent)
    (hone : h.countP isPaymentCreated ≤ 1) :
    firstCreatedAmount h = lastCreatedAmount h := by
  induction h with
  | nil => rfl
  | cons e t ih =>
      cases e with
      | PaymentCreated i x =>
          have hc : isPaymentCreated (.PaymentCreated i x) = true := rfl
          rw [List.countP_cons_of_pos _ _ hc] at hone
          have ht : t.countP isPaymentCreated = 0 := by omega
          have hno : t.any isPaymentCreated = false := by
            rw [Bool.eq_false_iff]
            intro hany
            rcases List.any_eq_true.mp hany with ⟨y, hy, hpy⟩
            exact absurd hpy (List.countP_eq_zero.mp ht y hy)
          simp [firstCreatedAmount, lastCreatedAmount, List.find?_cons, hc,
            lastCreatedAmountFrom, createdAmountOf,
            lastCreatedAmountFrom_no_created t hno]
      | PaymentAuthorised i =>
          have hc : isPaymentCreated (.PaymentAuthorised i) = false := rfl
          rw [List.countP_cons_of_neg _ _ (by simp [hc])] at hone
          simpa [firstCreatedAmount, lastCreatedAmount, List.find?_cons, hc,
            lastCreatedAmountFrom] using ih hone
      | PaymentCaptured i =>
          have hc : isPaymentCreated (.PaymentCaptured i) = false := rfl
          rw [List.countP_cons_of_neg _ _ (by simp [hc])] at hone
          simpa [firstCreatedAmount, lastCreatedAmount, List.find?_cons, hc,
            lastCreatedAmountFrom] using ih hone
      | PaymentRefunded i x =>
          have hc : isPaymentCreated (.PaymentRefunded i x) = false := rfl
          rw [List.countP_cons_of_neg _ _ (by simp [hc])] at hone
          simpa [firstCreatedAmount, lastCreatedAmount, List.find?_cons, hc,
            lastCreatedAmountFrom] using ih hone
      | PaymentCancelled i =>
          have hc : isPaymentCreated (.PaymentCancelled i) = false := rfl
          rw [List.countP_cons_of_neg _ _ (by simp [hc])] at hone
          simpa [firstCreatedAmount, lastCreatedAmount, List.find?_cons, hc,
            lastCreatedAmountFrom] using ih hone

theorem firstCreatedAmountFor_eq (h : List PaymentEvent) (cid : String)
    (hid : ∀ e ∈ h, e.id = cid) :
    firstCreatedAmountFor cid h = firstCreatedAmount h := by
  simp [firstCreatedAmountFor, firstCreatedAmount,
    find?_id_filter h cid isPaymentCreated hid]


theorem sumRefundedAll_nonneg (events : List PaymentEvent)
    (hnn : ∀ e ∈ events, 0 ≤ refundAmountOf e) :
    0 ≤ sumRefundedAll events := by
  refine List.sum_nonneg ?_
  intro x hx
  rcases List.mem_map.mp hx with ⟨e, he, rfl⟩
  exact hnn e (List.mem_of_mem_filter he)

theorem totalRefundedFor_nonneg (cid : String) (events : List PaymentEvent)
    (hnn : ∀ e ∈ events, 0 ≤ refundAmountOf e) :
    0 ≤ totalRefundedFor cid events := by
  refine List.sum_nonneg ?_
  intro x hx
  rcases List.mem_map.mp hx with ⟨e, he, rfl⟩
  exact hnn e (List.mem_of_mem_filter he)

theorem hydrate_eq_foldl (h : List PaymentEvent) :
    Evolve.hydrate h = h.foldl Evolve.evolve Evolve.initialState := rfl

theorem processCommand_eq (c : PaymentCommand) (h : List PaymentEvent) :
    Evolve.processCommand c h = Evolve.decide c (Evolve.hydrate h) := rfl

/-! Claims.  Each claim of the specification is settled by one theorem below;
theorems with hypotheses come with a closed witness instantiating them. -/

/-- C1: for every valid single-aggregate history (all events carry the id of
the command, and `PaymentCreated` occurs at most once, as the invariants of
the specification require of valid histories) and every command, the replay
decider of src/decide.ts and `processCommand` of src/evolve.ts return the
same result: the same event list on success, and the same rejection (with
the same message) on failure. -/
theorem claim_C1 (c : PaymentCommand) (h : List PaymentEvent)
    (hid : ∀ e ∈ h, e.id = c.id)
    (hone : h.countP isPaymentCreated ≤ 1) :
    Decide.decide c h = Evolve.processCommand c h := by
  cases c with
  | CreatePayment cid amount =>
      have hid2 : ∀ e ∈ h, e.id = cid := hid
      simp only [Decide.decide, Decide.decideCreatePayment, processCommand_eq,
        Evolve.decide, Evolve.decideCreatePayment, isSome_find?_eq_any,
        any_id_filter h cid isPaymentCreated hid2, hydrate_created]
  | AuthorisePayment cid =>
      have hid2 : ∀ e ∈ h, e.id = cid := hid
      simp only [Decide.decide, Decide.decideAuthorisePayment,
        processCommand_eq, Evolve.decide, Evolve.decideAuthorisePayment,
        isSome_find?_eq_any,
        any_id_filter h cid isPaymentCreated hid2,
        any_id_filter h cid isPaymentCancelled hid2,
        any_id_filter h cid isPaymentAuthorised hid2,
        hydrate_created, hydrate_cancelled, hydrate_authorised]
  | CapturePayment cid =>
      have hid2 : ∀ e ∈ h, e.id = cid := hid
      simp only [Decide.decide, Decide.decideCapturePayment,
        processCommand_eq, Evolve.decide, Evolve.decideCapturePayment,
        any_id_filter h cid isPaymentAuthorised hid2,
        any_id_filter h cid isPaymentCancelled hid2,
        any_id_filter h cid isPaymentCaptured hid2,
        hydrate_authorised, hydrate_cancelled, hydrate_captured]
  | RefundPayment cid amount =>
      have hid2 : ∀ e ∈ h, e.id = cid := hid
      have hfl : ((h.find? isPaymentCreated).map createdAmountOf).getD 0 =
          lastCreatedAmount h := by
        rw [← firstCreated_eq_lastCreated h hone]
        rfl
      simp only [Decide.decide, Decide.decideRefundPayment, processCommand_eq,
        Evolve.decide, Evolve.decideRefundPayment, isSome_find?_eq_any,
        any_id_filter h cid isPaymentCreated hid2,
        any_id_filter h cid isPaymentCaptured hid2,
        any_id_filter h cid isPaymentCancelled hid2,
        find?_id_filter h cid isPaymentCreated hid2,
        foldl_refund_total h cid, zero_add,
        totalRefundedFor_eq_sumAll h cid hid2, hfl,
        hydrate_created, hydrate_captured, hydrate_cancelled,
        hydrate_created_amount, hydrate_refunded_amount]
  | CancelPayment cid =>
      have hid2 : ∀ e ∈ h, e.id = cid := hid
      simp only [Decide.decide, Decide.decideCancelPayment, processCommand_eq,
        Evolve.decide, Evolve.decideCancelPayment, isSome_find?_eq_any,
        any_id_filter h cid isPaymentCreated hid2,
        any_id_filter h cid isPaymentCancelled hid2,
        any_id_filter h cid isPaymentCaptured hid2,
        foldl_refund_total h cid, zero_add,
        totalRefundedFor_eq_sumAll h cid hid2,
        hydrate_created, hydrate_cancelled, hydrate_captured,
        hydrate_refunded_amount]

/-- Witness for C1 at the history Created(100), Authorised, Captured and the
command RefundPayment 60. -/
theorem claim_C1_witness :
    (∀ e ∈ [PaymentEvent.PaymentCreated "p1" 100,
        PaymentEvent.PaymentAuthorised "p1",
        PaymentEvent.PaymentCaptured "p1"],
      e.id = (PaymentCommand.RefundPayment "p1" 60).id) ∧
    ([PaymentEvent.PaymentCreated "p1" 100,
        PaymentEvent.PaymentAuthorised "p1",
        PaymentEvent.PaymentCaptured "p1"].countP isPaymentCreated ≤ 1) ∧
    Decide.decide (.RefundPayment "p1" 60)
        [.PaymentCreated "p1" 100, .PaymentAuthorised "p1",
          .PaymentCaptured "p1"] =
      Evolve.processCommand (.RefundPayment "p1" 60)
        [.PaymentCreated "p1" 100, .PaymentAuthorised "p1",
          .PaymentCaptured "p1"] :=
  ⟨by decide, by decide, claim_C1 _ _ (by decide) (by decide)⟩

/-- C2: for every history in which the payment is created, captured and not
cancelled (in the sense the replay decider computes those flags for the id
of the command), RefundPayment succeeds with exactly the single event
PaymentRefunded(id, amount) if and only if the amount is at most the created
amount minus the sum of the amounts refunded so far for that id, and any
strictly larger amount is rejected with the refund-exceeds-captured
message. -/
theorem claim_C2 (events : List PaymentEvent) (id : String) (amount : Int)
    (hc : createdFor id events = true) (hcap : capturedFor id events = true)
    (hcan : cancelledFor id events = false) :
    (Decide.decide (.RefundPayment id amount) events =
        .ok [.PaymentRefunded id amount] ↔
      amount ≤ firstCreatedAmountFor id events - totalRefundedFor id events) ∧
    (firstCreatedAmountFor id events - totalRefundedFor id events < amount →
      Decide.decide (.RefundPayment id amount) events =
        .error "Payment cannot be refunded for more than captured") := by
  have hc2 : (events.any fun event =>
      event.id == id && isPaymentCreated event) = true := hc
  have hcap2 : (events.any fun event =>
      event.id == id && isPaymentCaptured event) = true := hcap
  have hcan2 : (events.any fun event =>
      event.id == id && isPaymentCancelled event) = false := hcan
  have hfa : (((events.find? fun event =>
      event.id == id && isPaymentCreated event).map createdAmountOf)).getD 0 =
      firstCreatedAmountFor id events := rfl
  simp only [Decide.decide, Decide.decideRefundPayment, isSome_find?_eq_any,
    hc2, hcap2, hcan2, foldl_refund_total, zero_add, hfa, Bool.not_true,
    Bool.false_eq_true, if_false, gt_iff_lt]
  by_cases hlt :
      firstCreatedAmountFor id events - totalRefundedFor id events < amount
  · constructor
    · rw [if_pos hlt]
      constructor
      · intro hcontr
        exact absurd hcontr (by simp)
      · intro hle
        exact absurd hle (not_le.mpr hlt)
    · intro _
      rw [if_pos hlt]
  · constructor
    · rw [if_neg hlt]
      constructor
      · intro _
        exact not_lt.mp hlt
      · intro _
        rfl
    · intro hcontr
      exact absurd hcontr hlt

/-- Witness for C2 at the history Created(100), Authorised, Captured and a
refund of 50. -/
theorem claim_C2_witness :
    createdFor "p1" [.PaymentCreated "p1" 100, .PaymentAuthorised "p1",
        .PaymentCaptured "p1"] = true ∧
    capturedFor "p1" [.PaymentCreated "p1" 100, .PaymentAuthorised "p1",
        .PaymentCaptured "p1"] = true ∧
    cancelledFor "p1" [.PaymentCreated "p1" 100, .PaymentAuthorised "p1",
        .PaymentCaptured "p1"] = false ∧
    ((Decide.decide (.RefundPayment "p1" 50)
          [.PaymentCreated "p1" 100, .PaymentAuthorised "p1",
            .PaymentCaptured "p1"] =
        .ok [.PaymentRefunded "p1" 50] ↔
      (50 : Int) ≤
        firstCreatedAmountFor "p1"
            [.PaymentCreated "p1" 100, .PaymentAuthorised "p1",
              .PaymentCaptured "p1"] -
          totalRefundedFor "p1"
            [.PaymentCreated "p1" 100, .PaymentAuthorised "p1",
              .PaymentCaptured "p1"]) ∧
      (firstCreatedAmountFor "p1"
            [.PaymentCreated "p1" 100, .PaymentAuthorised "p1",
              .PaymentCaptured "p1"] -
          totalRefundedFor "p1"
            [.PaymentCreated "p1" 100, .PaymentAuthorised "p1",
              .PaymentCaptured "p1"] < 50 →
        Decide.decide (.RefundPayment "p1" 50)
            [.PaymentCreated "p1" 100, .PaymentAuthorised "p1",
              .PaymentCaptured "p1"] =
          .error "Payment cannot be refunded for more than captured")) :=
  ⟨by decide, by decide, by decide,
    claim_C2 _ _ _ (by decide) (by decide) (by decide)⟩

/-- C3 (amended): over histories whose refund amounts are non-negative (the
data model of the specification only admits non-negative amounts), the
folding decider and the src/decide.ts replay decider accept CancelPayment
and return exactly PaymentCancelled(id) precisely when the payment is
created, not cancelled, not captured, and the accumulated refunded amount is
0 — so zero-amount PaymentRefunded events do not block them; the
src/unnamed/part_000 replay decider instead requires that no PaymentRefunded
event for the id exists at all, so a zero-amount refund event blocks
cancellation there (see the counterexample). -/
theorem claim_C3 (events : List PaymentEvent) (id : String)
    (hnn : ∀ e ∈ events, 0 ≤ refundAmountOf e) :
    (Evolve.processCommand (.CancelPayment id) events =
        .ok [.PaymentCancelled id] ↔
      ((Evolve.hydrate events).created.created = true ∧
        (Evolve.hydrate events).cancelled.cancelled = false ∧
        (Evolve.hydrate events).captured.captured = false ∧
        (Evolve.hydrate events).refunded.amount = 0)) ∧
    (Decide.decide (.CancelPayment id) events = .ok [.PaymentCancelled id] ↔
      (createdFor id events = true ∧ cancelledFor id events = false ∧
        capturedFor id events = false ∧ totalRefundedFor id events = 0)) ∧
    (Part000.decide (.CancelPayment id) events = .ok [.PaymentCancelled id] ↔
      (createdFor id events = true ∧ cancelledFor id events = false ∧
        capturedFor id events = false ∧
        refundEventFor id events = false)) := by
  have hra0 : 0 ≤ (Evolve.hydrate events).refunded.amount := by
    rw [hydrate_refunded_amount]
    exact sumRefundedAll_nonneg events hnn
  have htr0 : 0 ≤ totalRefundedFor id events :=
    totalRefundedFor_nonneg id events hnn
  refine ⟨?_, ?_, ?_⟩
  · cases hcr : (Evolve.hydrate events).created.created <;>
      cases hca : (Evolve.hydrate events).cancelled.cancelled <;>
      cases hcp : (Evolve.hydrate events).captured.captured <;>
      by_cases hrp : (Evolve.hydrate events).refunded.amount > 0 <;>
      simp [Evolve.processCommand, Evolve.paymentDecider, Evolve.decide,
        Evolve.decideCancelPayment, hcr, hca, hcp, hrp] <;>
      omega
  · simp only [Decide.decide, Decide.decideCancelPayment]
    rw [foldl_refund_total events id, zero_add]
    cases hcr : createdFor id events <;>
      cases hca : cancelledFor id events <;>
      cases hcp : capturedFor id events <;>
      by_cases hrp : totalRefundedFor id events > 0 <;>
      (have hcr2 : (events.any fun event =>
            event.id == id && isPaymentCreated event) = _ := hcr
       have hca2 : (events.any fun event =>
            event.id == id && isPaymentCancelled event) = _ := hca
       have hcp2 : (events.any fun event =>
            event.id == id && isPaymentCaptured event) = _ := hcp
       simp [isSome_find?_eq_any, hcr, hca, hcp, hrp, hcr2, hca2, hcp2]) <;>
      omega
  · cases hcr : createdFor id events <;>
      cases hca : cancelledFor id events <;>
      cases hcp : capturedFor id events <;>
      cases hrf : refundEventFor id events <;>
      (have hcr2 : (events.any fun event =>
            event.id == id && isPaymentCreated event) = _ := hcr
       have hca2 : (events.any fun event =>
            event.id == id && isPaymentCancelled event) = _ := hca
       have hcp2 : (events.any fun event =>
            event.id == id && isPaymentCaptured event) = _ := hcp
       have hrf2 : (events.any fun event =>
            event.id == id && isPaymentRefunded event) = _ := hrf
       simp [Part000.decide, hcr, hca, hcp, hrf, hcr2, hca2, hcp2, hrf2])

/-- Counterexample to C3 as stated: on the history Created(100) followed by
a PaymentRefunded event of amount 0, every precondition the claim lists
holds (created, not cancelled, not captured, accumulated refunded amount 0),
yet the src/unnamed/part_000 decider — one of the cited implementations —
rejects CancelPayment with the already-refunded message instead of
succeeding. -/
theorem claim_C3_counterexample :
    createdFor "p1" [.PaymentCreated "p1" 100, .PaymentRefunded "p1" 0]
        = true ∧
    cancelledFor "p1" [.PaymentCreated "p1" 100, .PaymentRefunded "p1" 0]
        = false ∧
    capturedFor "p1" [.PaymentCreated "p1" 100, .PaymentRefunded "p1" 0]
        = false ∧
    totalRefundedFor "p1" [.PaymentCreated "p1" 100, .PaymentRefunded "p1" 0]
        = 0 ∧
    Part000.decide (.CancelPayment "p1")
        [.PaymentCreated "p1" 100, .PaymentRefunded "p1" 0] =
      .error "Payment already refunded" :=
  ⟨by decide, by decide, by decide, by decide, rfl⟩

/-- Witness for C3 at the history Created(100). -/
theorem claim_C3_witness :
    (∀ e ∈ [PaymentEvent.PaymentCreated "p1" 100],
      0 ≤ refundAmountOf e) ∧
    (Evolve.processCommand (.CancelPayment "p1")
        [.PaymentCreated "p1" 100] = .ok [.PaymentCancelled "p1"] ↔
      ((Evolve.hydrate [.PaymentCreated "p1" 100]).created.created = true ∧
        (Evolve.hydrate
            [.PaymentCreated "p1" 100]).cancelled.cancelled = false ∧
        (Evolve.hydrate [.PaymentCreated "p1" 100]).captured.captured = false ∧
        (Evolve.hydrate [.PaymentCreated "p1" 100]).refunded.amount = 0)) :=
  ⟨by decide, (claim_C3 _ _ (by decide)).1⟩

/-- C4: for every state and command, the folding decision engine checks the
preconditions in the order of the rule table, and the rejection message is
the first violated precondition in that order: Create checks already-exists;
Authorise checks created, then cancelled, then already-authorised; Capture
checks authorised, then cancelled, then already-captured; Refund checks
created, then captured, then cancelled, then the amount arithmetic; Cancel
checks created, then cancelled, then captured, then the recorded refund.
The last conjunct is the example of the claim: refunding a created,
cancelled, never-captured payment reports not-captured (captured is checked
before cancelled). -/
theorem claim_C4 (s : Evolve.PaymentState) (id : String) (amount : Int) :
    (s.created.created = true →
      Evolve.decide (.CreatePayment id amount) s =
        .error "Payment already exists") ∧
    (s.created.created = false →
      Evolve.decide (.CreatePayment id amount) s =
        .ok [.PaymentCreated id amount]) ∧
    (s.created.created = false →
      Evolve.decide (.AuthorisePayment id) s = .error "Payment not created") ∧
    (s.created.created = true → s.cancelled.cancelled = true →
      Evolve.decide (.AuthorisePayment id) s = .error "Payment cancelled") ∧
    (s.created.created = true → s.cancelled.cancelled = false →
      s.authorised.authorised = true →
      Evolve.decide (.AuthorisePayment id) s =
        .error "Payment already authorised") ∧
    (s.created.created = true → s.cancelled.cancelled = false →
      s.authorised.authorised = false →
      Evolve.decide (.AuthorisePayment id) s =
        .ok [.PaymentAuthorised id]) ∧
    (s.authorised.authorised = false →
      Evolve.decide (.CapturePayment id) s =
        .error "Payment not authorised") ∧
    (s.authorised.authorised = true → s.cancelled.cancelled = true →
      Evolve.decide (.CapturePayment id) s = .error "Payment cancelled") ∧
    (s.authorised.authorised = true → s.cancelled.cancelled = false →
      s.captured.captured = true →
      Evolve.decide (.CapturePayment id) s =
        .error "Payment already captured") ∧
    (s.authorised.authorised = true → s.cancelled.cancelled = false →
      s.captured.captured = false →
      Evolve.decide (.CapturePayment id) s = .ok [.PaymentCaptured id]) ∧
    (s.created.created = false →
      Evolve.decide (.RefundPayment id amount) s =
        .error "Payment not created") ∧
    (s.created.created = true → s.captured.captured = false →
      Evolve.decide (.RefundPayment id amount) s =
        .error "Payment not captured") ∧
    (s.created.created = true → s.captured.captured = true →
      s.cancelled.cancelled = true →
      Evolve.decide (.RefundPayment id amount) s =
        .error "Payment cancelled") ∧
    (s.created.created = true → s.captured.captured = true →
      s.cancelled.cancelled = false →
      s.created.amount - s.refunded.amount < amount →
      Evolve.decide (.RefundPayment id amount) s =
        .error "Payment cannot be refunded for more than captured") ∧
    (s.created.created = true → s.captured.captured = true →
      s.cancelled.cancelled = false →
      amount ≤ s.created.amount - s.refunded.amount →
      Evolve.decide (.RefundPayment id amount) s =
        .ok [.PaymentRefunded id amount]) ∧
    (s.created.created = false →
      Evolve.decide (.CancelPayment id) s = .error "Payment not created") ∧
    (s.created.created = true → s.cancelled.cancelled = true →
      Evolve.decide (.CancelPayment id) s =
        .error "Payment already cancelled") ∧
    (s.created.created = true → s.cancelled.cancelled = false →
      s.captured.captured = true →
      Evolve.decide (.CancelPayment id) s =
        .error "Payment already captured") ∧
    (s.created.created = true → s.cancelled.cancelled = false →
      s.captured.captured = false → 0 < s.refunded.amount →
      Evolve.decide (.CancelPayment id) s =
        .error "Payment already refunded") ∧
    (s.created.created = true → s.cancelled.cancelled = false →
      s.captured.captured = false → s.refunded.amount ≤ 0 →
      Evolve.decide (.CancelPayment id) s = .ok [.PaymentCancelled id]) ∧
    (s.created.created = true → s.cancelled.cancelled = true →
      s.captured.captured = false →
      Evolve.decide (.RefundPayment id amount) s =
        .error "Payment not captured") := by
  refine ⟨?_, ?_, ?_, ?_, ?_, ?_, ?_, ?_, ?_, ?_, ?_, ?_, ?_, ?_, ?_, ?_,
    ?_, ?_, ?_, ?_, ?_⟩ <;>
    intros <;>
    simp only [Evolve.decide, Evolve.decideCreatePayment,
      Evolve.decideAuthorisePayment, Evolve.decideCapturePayment,
      Evolve.decideRefundPayment, Evolve.decideCancelPayment] <;>
    split_ifs <;>
    (try simp_all) <;>
    omega

/-- Witness for C4: a created, cancelled, never-captured state, for which
RefundPayment reports the not-captured message. -/
theorem claim_C4_witness :
    Evolve.decide (.RefundPayment "p1" 10)
        { created := { amount := 100, created := true }
          cancelled := { cancelled := true }
          authorised := { authorised := true }
          captured := { captured := false }
          refunded := { amount := 0, refunded := false } } =
      .error "Payment not captured" :=
  (claim_C4
      { created := { amount := 100, created := true }
        cancelled := { cancelled := true }
        authorised := { authorised := true }
        captured := { captured := false }
        refunded := { amount := 0, refunded := false } }
      "p1" 10).2.2.2.2.2.2.2.2.2.2.2.2.2.2.2.2.2.2.2.2 rfl rfl rfl

/-- C5: evolve is a total pure function of its two arguments (it is a Lean
function, so totality, determinism and absence of mutation hold by
construction), and for each event kind it rewrites exactly the facet of that
kind — the created facet for PaymentCreated, and so on — leaving every other
facet structurally equal to the input facet. -/
theorem claim_C5 (s : Evolve.PaymentState) :
    (∀ id amount,
      (Evolve.evolve s (.PaymentCreated id amount)).created =
          { amount := amount, created := true } ∧
        (Evolve.evolve s (.PaymentCreated id amount)).authorised =
          s.authorised ∧
        (Evolve.evolve s (.PaymentCreated id amount)).captured = s.captured ∧
        (Evolve.evolve s (.PaymentCreated id amount)).refunded = s.refunded ∧
        (Evolve.evolve s (.PaymentCreated id amount)).cancelled =
          s.cancelled) ∧
    (∀ id,
      (Evolve.evolve s (.PaymentAuthorised id)).authorised =
          { authorised := true } ∧
        (Evolve.evolve s (.PaymentAuthorised id)).created = s.created ∧
        (Evolve.evolve s (.PaymentAuthorised id)).captured = s.captured ∧
        (Evolve.evolve s (.PaymentAuthorised id)).refunded = s.refunded ∧
        (Evolve.evolve s (.PaymentAuthorised id)).cancelled = s.cancelled) ∧
    (∀ id,
      (Evolve.evolve s (.PaymentCaptured id)).captured =
          { captured := true } ∧
        (Evolve.evolve s (.PaymentCaptured id)).created = s.created ∧
        (Evolve.evolve s (.PaymentCaptured id)).authorised = s.authorised ∧
        (Evolve.evolve s (.PaymentCaptured id)).refunded = s.refunded ∧
        (Evolve.evolve s (.PaymentCaptured id)).cancelled = s.cancelled) ∧
    (∀ id amount,
      (Evolve.evolve s (.PaymentRefunded id amount)).refunded.amount =
          s.refunded.amount + amount ∧
        (Evolve.evolve s (.PaymentRefunded id amount)).refunded.refunded =
          ((s.refunded.amount + amount == s.created.amount) &&
            Decidable.decide (s.created.amount > 0)) ∧
        (Evolve.evolve s (.PaymentRefunded id amount)).created = s.created ∧
        (Evolve.evolve s (.PaymentRefunded id amount)).authorised =
          s.authorised ∧
        (Evolve.evolve s (.PaymentRefunded id amount)).captured = s.captured ∧
        (Evolve.evolve s (.PaymentRefunded id amount)).cancelled =
          s.cancelled) ∧
    (∀ id,
      (Evolve.evolve s (.PaymentCancelled id)).cancelled =
          { cancelled := true } ∧
        (Evolve.evolve s (.PaymentCancelled id)).created = s.created ∧
        (Evolve.evolve s (.PaymentCancelled id)).authorised = s.authorised ∧
        (Evolve.evolve s (.PaymentCancelled id)).captured = s.captured ∧
        (Evolve.evolve s (.PaymentCancelled id)).refunded = s.refunded) :=
  ⟨fun _ _ => ⟨rfl, rfl, rfl, rfl, rfl⟩,
   fun _ => ⟨rfl, rfl, rfl, rfl, rfl⟩,
   fun _ => ⟨rfl, rfl, rfl, rfl, rfl⟩,
   fun _ _ => ⟨rfl, rfl, rfl, rfl, rfl, rfl⟩,
   fun _ => ⟨rfl, rfl, rfl, rfl, rfl⟩⟩

/-- C6 (amended): the refunded.amount field of the hydrated state always
equals the sum of the amounts of the folded PaymentRefunded events; and the
fully-refunded flag is true exactly when that accumulated amount equals the
created amount with the created amount strictly positive, provided no
PaymentCreated event occurs after a PaymentRefunded event in the history
(every valid history satisfies this, since the single creation precedes all
refunds; the counterexample shows the flag equivalence fails without the
proviso). -/
theorem claim_C6 (h : List PaymentEvent) :
    (Evolve.hydrate h).refunded.amount = sumRefundedAll h ∧
    (List.Pairwise
        (fun a b => isPaymentRefunded a = true → isPaymentCreated b = false)
        h →
      ((Evolve.hydrate h).refunded.refunded = true ↔
        ((Evolve.hydrate h).refunded.amount =
            (Evolve.hydrate h).created.amount ∧
          0 < (Evolve.hydrate h).created.amount))) := by
  refine ⟨hydrate_refunded_amount h, ?_⟩
  induction h using List.reverseRecOn with
  | nil =>
      intro _
      simp [Evolve.hydrate, Evolve.paymentDecider, Evolve.initialState]
  | append_singleton t e ih =>
      intro hpw
      rw [List.pairwise_append] at hpw
      obtain ⟨hpt, -, hcross⟩ := hpw
      have happ : Evolve.hydrate (t ++ [e]) =
          Evolve.evolve (Evolve.hydrate t) e := by
        rw [hydrate_eq_foldl, hydrate_eq_foldl, List.foldl_append]
        rfl
      rw [happ]
      cases e with
      | PaymentCreated i x =>
          have hnoref : t.any isPaymentRefunded = false := by
            rw [Bool.eq_false_iff]
            intro hany
            rcases List.any_eq_true.mp hany with ⟨y, hy, hpy⟩
            have hx := hcross y hy (.PaymentCreated i x)
              (List.mem_singleton_self _) hpy
            simp [isPaymentCreated] at hx
          have hfacet : (Evolve.hydrate t).refunded =
              Evolve.initialState.refunded :=
            foldl_evolve_refunded_of_no_refund t Evolve.initialState hnoref
          simp only [Evolve.evolve, hfacet, Evolve.initialState]
          simp
          omega
      | PaymentAuthorised i =>
          simp only [Evolve.evolve]
          exact ih hpt
      | PaymentCaptured i =>
          simp only [Evolve.evolve]
          exact ih hpt
      | PaymentRefunded i x =>
          simp only [Evolve.evolve]
          simp [Bool.and_eq_true, beq_iff_eq, decide_eq_true_eq]
      | PaymentCancelled i =>
          simp only [Evolve.evolve]
          exact ih hpt

/-- Counterexample to C6 as stated: folding a PaymentRefunded of 50 before
the PaymentCreated of 50 yields an accumulated refunded amount equal to the
positive created amount, yet the fully-refunded flag is false, because the
flag was computed against the created amount current at the refund (0). -/
theorem claim_C6_counterexample :
    (Evolve.hydrate
        [.PaymentRefunded "p1" 50, .PaymentCreated "p1" 50]).refunded.amount =
      (Evolve.hydrate
        [.PaymentRefunded "p1" 50, .PaymentCreated "p1" 50]).created.amount ∧
    0 < (Evolve.hydrate
        [.PaymentRefunded "p1" 50, .PaymentCreated "p1" 50]).created.amount ∧
    (Evolve.hydrate
        [.PaymentRefunded "p1" 50, .PaymentCreated "p1" 50]).refunded.refunded
      = false :=
  ⟨rfl, by decide, rfl⟩

/-- Witness for C6 at the history Created(100), Refunded(100). -/
theorem claim_C6_witness :
    List.Pairwise
        (fun a b => isPaymentRefunded a = true → isPaymentCreated b = false)
        [.PaymentCreated "p1" 100, .PaymentRefunded "p1" 100] ∧
    ((Evolve.hydrate
          [.PaymentCreated "p1" 100,
            .PaymentRefunded "p1" 100]).refunded.refunded = true ↔
      ((Evolve.hydrate
            [.PaymentCreated "p1" 100,
              .PaymentRefunded "p1" 100]).refunded.amount =
          (Evolve.hydrate
            [.PaymentCreated "p1" 100,
              .PaymentRefunded "p1" 100]).created.amount ∧
        0 < (Evolve.hydrate
            [.PaymentCreated "p1" 100,
              .PaymentRefunded "p1" 100]).created.amount)) :=
  ⟨by decide, (claim_C6 _).2 (by decide)⟩

/-- C7 (amended): for every history containing a PaymentCreated event, the
hydrated created flag is true, and created.amount equals the amount of the
last PaymentCreated event of the history; when the history contains at most
one PaymentCreated (as every valid history does), this is the amount of the
first PaymentCreated, which no later event changes.  (The counterexample
shows that with two creations the first-created amount is overwritten, so
the claim as stated fails.) -/
theorem claim_C7 (h : List PaymentEvent) (hcr : h.any isPaymentCreated = true) :
    (Evolve.hydrate h).created.created = true ∧
    (Evolve.hydrate h).created.amount = lastCreatedAmount h ∧
    (h.countP isPaymentCreated ≤ 1 →
      (Evolve.hydrate h).created.amount = firstCreatedAmount h) := by
  refine ⟨?_, hydrate_created_amount h, ?_⟩
  · rw [hydrate_created]
    exact hcr
  · intro hone
    rw [hydrate_created_amount, ← firstCreated_eq_lastCreated h hone]

/-- Counterexample to C7 as stated: with two PaymentCreated events of
amounts 100 then 50, the hydrated created.amount is 50, not the amount 100
of the first PaymentCreated. -/
theorem claim_C7_counterexample :
    firstCreatedAmount
        [.PaymentCreated "p1" 100, .PaymentCreated "p1" 50] = 100 ∧
    (Evolve.hydrate
        [.PaymentCreated "p1" 100, .PaymentCreated "p1" 50]).created.amount =
      50 ∧
    (Evolve.hydrate
        [.PaymentCreated "p1" 100, .PaymentCreated "p1" 50]).created.amount ≠
      firstCreatedAmount [.PaymentCreated "p1" 100, .PaymentCreated "p1" 50] :=
  ⟨rfl, rfl, by decide⟩

/-- Witness for C7 at the single-creation history Created(100). -/
theorem claim_C7_witness :
    [PaymentEvent.PaymentCreated "p1" 100].any isPaymentCreated = true ∧
    [PaymentEvent.PaymentCreated "p1" 100].countP isPaymentCreated ≤ 1 ∧
    (Evolve.hydrate [.PaymentCreated "p1" 100]).created.amount =
      firstCreatedAmount [.PaymentCreated "p1" 100] :=
  ⟨by decide, by decide, (claim_C7 _ (by decide)).2.2 (by decide)⟩

/-- C8: every successful decision of any of the three deciders returns a
list of exactly one event — never zero, never more than one — and a
rejection carries no events at all (the Except error constructor holds only
the message; absence of mutation holds by construction in the pure
embedding). -/
theorem claim_C8 (c : PaymentCommand) (s : Evolve.PaymentState)
    (h : List PaymentEvent) :
    (∀ l, Evolve.decide c s = .ok l → l.length = 1) ∧
    (∀ l, Decide.decide c h = .ok l → l.length = 1) ∧
    (∀ l, Part000.decide c h = .ok l → l.length = 1) := by
  refine ⟨?_, ?_, ?_⟩ <;> intro l hl <;> cases c <;>
    simp only [Evolve.decide, Evolve.decideCreatePayment,
      Evolve.decideAuthorisePayment, Evolve.decideCapturePayment,
      Evolve.decideRefundPayment, Evolve.decideCancelPayment,
      Decide.decide, Decide.decideCreatePayment,
      Decide.decideAuthorisePayment, Decide.decideCapturePayment,
      Decide.decideRefundPayment, Decide.decideCancelPayment,
      Part000.decide] at hl <;>
    (repeat' split at hl) <;> simp_all <;> (subst hl; rfl)

/-- Witness for C8: creating a payment from the initial state yields exactly
one event. -/
theorem claim_C8_witness :
    Evolve.decide (.CreatePayment "p1" 100) Evolve.initialState =
      .ok [.PaymentCreated "p1" 100] ∧
    [PaymentEvent.PaymentCreated "p1" 100].length = 1 :=
  ⟨rfl, (claim_C8 (.CreatePayment "p1" 100) Evolve.initialState []).1
    [.PaymentCreated "p1" 100] rfl⟩

/-- C9: buildPaymentStatus returns null exactly when the supplied events
contain no PaymentCreated — in particular on the empty history for every id
(hydrate folds the supplied events without filtering by id, see C10, so
"the id was never created" refers to the supplied single-aggregate
history); when it returns a record, the status is chosen with precedence
cancelled, then fully-refunded, then captured, then authorised, then
created, refundedAmount is the folded refunded amount, and
remainingRefundableAmount is the created amount minus refundedAmount. -/
theorem claim_C9 (id : String) (events : List PaymentEvent) :
    Projection.buildPaymentStatus id [] = none ∧
    (Projection.buildPaymentStatus id events = none ↔
      events.any isPaymentCreated = false) ∧
    ∀ r, Projection.buildPaymentStatus id events = some r →
      r.refundedAmount = (Evolve.hydrate events).refunded.amount ∧
      r.remainingRefundableAmount =
        (Evolve.hydrate events).created.amount - r.refundedAmount ∧
      ((Evolve.hydrate events).cancelled.cancelled = true →
        r.status = .cancelled) ∧
      ((Evolve.hydrate events).cancelled.cancelled = false →
        (Evolve.hydrate events).refunded.refunded = true →
        r.status = .refunded) ∧
      ((Evolve.hydrate events).cancelled.cancelled = false →
        (Evolve.hydrate events).refunded.refunded = false →
        (Evolve.hydrate events).captured.captured = true →
        r.status = .captured) ∧
      ((Evolve.hydrate events).cancelled.cancelled = false →
        (Evolve.hydrate events).refunded.refunded = false →
        (Evolve.hydrate events).captured.captured = false →
        (Evolve.hydrate events).authorised.authorised = true →
        r.status = .authorised) ∧
      ((Evolve.hydrate events).cancelled.cancelled = false →
        (Evolve.hydrate events).refunded.refunded = false →
        (Evolve.hydrate events).captured.captured = false →
        (Evolve.hydrate events).authorised.authorised = false →
        r.status = .created) := by
  refine ⟨rfl, ?_, ?_⟩
  · rw [← hydrate_created]
    cases hcr : (Evolve.hydrate events).created.created <;>
      simp [Projection.buildPaymentStatus, hcr]
  · intro r hr
    rw [Projection.buildPaymentStatus] at hr
    cases hcr : (Evolve.hydrate events).created.created
    · simp [hcr] at hr
    · simp only [hcr, Bool.not_true, Bool.false_eq_true, if_false,
        Option.some.injEq] at hr
      subst hr
      refine ⟨rfl, rfl, ?_, ?_, ?_, ?_, ?_⟩ <;> intros <;> simp_all

/-- Witness for C9 at the history Created(100), Authorised. -/
theorem claim_C9_witness :
    Projection.buildPaymentStatus "p1"
        [.PaymentCreated "p1" 100, .PaymentAuthorised "p1"] =
      some
        { id := "p1", amount := 100, status := .authorised,
          refundedAmount := 0, remainingRefundableAmount := 100 } ∧
    (Projection.PaymentStatus.status
        { id := "p1", amount := 100, status := .authorised,
          refundedAmount := 0, remainingRefundableAmount := 100 }) =
      Projection.StatusKind.authorised :=
  ⟨rfl,
    ((claim_C9 "p1" [.PaymentCreated "p1" 100, .PaymentAuthorised "p1"]).2.2
        { id := "p1", amount := 100, status := .authorised,
          refundedAmount := 0, remainingRefundableAmount := 100 }
        rfl).2.2.2.2.2.1 rfl rfl rfl rfl⟩

/-- C10: buildPaymentStatus does not filter the supplied events by its id
argument: for any two ids the results over the same events agree up to the
echoed id field, and whenever the folded state is created — even if the only
PaymentCreated event carries a different id — the queried id receives a
non-null status built from those events. -/
theorem claim_C10 (a b : String) (events : List PaymentEvent) :
    Projection.buildPaymentStatus b events =
      (Projection.buildPaymentStatus a events).map
        (fun r => { r with id := b }) ∧
    ((Evolve.hydrate events).created.created = true →
      (Projection.buildPaymentStatus a events).isSome = true) := by
  cases hcr : (Evolve.hydrate events).created.created <;>
    simp [Projection.buildPaymentStatus, hcr]

/-- Witness for C10: the only creation carries id p2, yet querying p1
returns a non-null status. -/
theorem claim_C10_witness :
    (Evolve.hydrate [.PaymentCreated "p2" 100]).created.created = true ∧
    (Projection.buildPaymentStatus "p1"
        [.PaymentCreated "p2" 100]).isSome = true :=
  ⟨rfl, (claim_C10 "p1" "p2" [.PaymentCreated "p2" 100]).2 rfl⟩

end Decider
